import Mathlib

/-!
# Verification of the kanali-plugin-apikey authorization plugin

Shallow embedding of the Go sources of
`github.com/northwesternmutual/kanali-plugin-apikey`:

* `src/plugin.go` — the current revision: `OnRequest` looks the proxy up in
  a store, parses the plugin configuration, short-circuits OPTIONS requests,
  extracts the `apikey` header, resolves the credential and binding, and
  finally calls `validateApiKey`.  Its rate-limit check and traffic
  reporting are commented out in the source.
* `src/unnamed/part_000` — an earlier revision: `OnRequest` receives the
  proxy as a parameter, short-circuits OPTIONS requests first, resolves the
  credential and the binding rule, calls `validateAPIKey`, performs a live
  rate-limit check (429 on violation) and finally fires a traffic report in
  a detached goroutine before returning nil.

External collaborators (the kanali store interfaces, the traffic store, the
viper flag registry) are modelled as components of an environment record of
abstract functions; the plugin's own control flow is translated statement by
statement.  The detached `go ReportTraffic` call of `part_000` is modelled
by recording the reported traffic point in the result, and the result also
records which pipeline stages (credential lookup, binding lookup,
authorization, rate check) the request actually reached.
-/

/-- `v2.GranularProxy` (kanali API type, consumed read-only): the list of
HTTP verbs allowed by a granular rule. -/
structure GranularProxy where
  Verbs : List String
deriving DecidableEq

/-- `v2.Rule` (kanali API type): a global flag plus a granular verb list. -/
structure Rule where
  Global : Bool
  Granular : GranularProxy
deriving DecidableEq

/-- An `v2.ApiKey` resource; only its `ObjectMeta.Name` is consumed. -/
structure ApiKey where
  name : String
deriving DecidableEq

/-- A `v2.ApiProxy` resource, flattened to the three fields the plugin
reads: `ObjectMeta.Namespace`, `Spec.Source.Path` and `Spec.Target.Path`. -/
structure ApiProxy where
  ns : String
  sourcePath : String
  targetPath : String
deriving DecidableEq

/-- An inbound HTTP request, reduced to the fields `OnRequest` reads:
`r.Method`, `r.URL.Path` and the header map.  Go's `http.Header.Get`
returns `""` for an absent header, so headers are a total function. -/
structure Request where
  method : String
  urlPath : String
  headers : String → String

/-- Models Go's `strings.ToUpper` on the ASCII strings (HTTP methods and
verbs) the plugin compares. -/
def toUpperGo (s : String) : String :=
  ⟨s.data.map Char.toUpper⟩

/-- `validateGranularRules` from `src/plugin.go` lines 182–192 (identical in
`src/unnamed/part_000` lines 138–148): a method is granted iff the verb
list is non-empty and some verb matches it case-insensitively. -/
def validateGranularRules (method : String) (rule : GranularProxy) : Bool :=
  if rule.Verbs.length < 1 then
    false
  else
    rule.Verbs.any fun verb => toUpperGo verb == toUpperGo method

/-- `validateApiKey` from `src/plugin.go` lines 173–178: a nil rule denies;
otherwise the global flag short-circuits granular validation. -/
def validateApiKey (rule : Option Rule) (method : String) : Bool :=
  match rule with
  | none => false
  | some rule => rule.Global || validateGranularRules method rule.Granular

/-- `validateAPIKey` from `src/unnamed/part_000` lines 132–134: that
revision passes the rule by value (its caller has already handled nil). -/
def validateAPIKey (rule : Rule) (method : String) : Bool :=
  rule.Global || validateGranularRules method rule.Granular

/-- Modelled from the spec: `utils.ComputeTargetPath` lives in the external
kanali repository, not under `src/`; the spec (§4.1) defines it as
stripping `sourcePath` from the front of `requestPath` when it is a prefix
and prepending `targetPath`, and returning `requestPath` unchanged on a
prefix mismatch. -/
def ComputeTargetPath (sourcePath targetPath requestPath : String) : String :=
  if sourcePath.data.isPrefixOf requestPath.data then
    targetPath ++ String.mk (requestPath.data.drop sourcePath.data.length)
  else
    requestPath

/-- A pipeline stage that `OnRequest` may reach after its OPTIONS /
header checks: a credential-store lookup, a binding-store lookup, a call
to the rule validation function, or the rate-limit check.  The result of
the embedded `OnRequest` records the stages reached, so that claims of the
form "stage X is never reached" are statements about the result. -/
inductive Stage where
  | credentialLookup
  | bindingLookup
  | authorization
  | rateCheck
deriving DecidableEq

namespace Part000

/-- The external collaborators of `src/unnamed/part_000`'s `OnRequest`,
abstracted as functions: the viper-configured header name (default
`apikey`), the kanali `ApiKeyStore` and `ApiKeyBindingStore` read
interfaces, the `TrafficStore` rate-limit predicate, and the ambient clock
reading `time.Now()` taken at the top of `OnRequest`.  `ρ` is the type of
the opaque rate policy returned by the binding store and consumed only by
the rate-limit check. -/
structure Env (ρ : Type) where
  headerKey : String
  apiKeyStore : String → Option ApiKey
  apiKeyBindingGet : String → String → String → String → Option Rule × ρ
  isRateLimitViolated : ApiProxy → ρ → String → Nat → Bool
  now : Nat

/-- The `store.TrafficPoint` reported by the detached goroutine on full
success (`src/unnamed/part_000` lines 112–117). -/
structure TrafficPoint where
  time : Nat
  ns : String
  proxyName : String
  keyName : String
deriving DecidableEq

/-- The error value `OnRequest` returns: nil (proceed to upstream) or a
`kanaliError.StatusError` with an HTTP status and a message. -/
inductive Outcome where
  | next
  | statusError (status : Nat) (msg : String)
deriving DecidableEq

/-- The observable effect of one `OnRequest` call: its returned error
value, the traffic point reported by the fire-and-forget goroutine (if
any), and the pipeline stages reached. -/
structure Result where
  outcome : Outcome
  traffic : Option TrafficPoint
  stages : List Stage
deriving DecidableEq

/-- `OnRequest` from `src/unnamed/part_000` lines 68–120, statement by
statement: OPTIONS bypass, header extraction via the configured header
name, credential lookup, binding/rule lookup keyed on namespace, the
`apiKeyBindingName` configuration entry, the credential name and the
computed target path, rule validation, rate-limit check, and finally the
detached traffic report and nil return. -/
def OnRequest {ρ : Type} (env : Env ρ) (config : String → String)
    (p : ApiProxy) (r : Request) : Result :=
  if toUpperGo r.method == "OPTIONS" then
    ⟨Outcome.next, none, []⟩
  else
    let apiKey := r.headers env.headerKey
    if apiKey.length < 1 then
      ⟨Outcome.statusError 401 "apikey not found in request", none, []⟩
    else
      match env.apiKeyStore apiKey with
      | none =>
          ⟨Outcome.statusError 401 "apikey not found in k8s cluster", none,
            [Stage.credentialLookup]⟩
      | some key =>
          let rr := env.apiKeyBindingGet p.ns (config "apiKeyBindingName") key.name
            (ComputeTargetPath p.sourcePath p.targetPath r.urlPath)
          match rr.1 with
          | none =>
              ⟨Outcome.statusError 401 "no binding found for associated ApiProxy", none,
                [Stage.credentialLookup, Stage.bindingLookup]⟩
          | some rule =>
              if !(validateAPIKey rule r.method) then
                ⟨Outcome.statusError 401 "api key unauthorized", none,
                  [Stage.credentialLookup, Stage.bindingLookup, Stage.authorization]⟩
              else if env.isRateLimitViolated p rr.2 key.name env.now then
                ⟨Outcome.statusError 429 "rate limit exceeded", none,
                  [Stage.credentialLookup, Stage.bindingLookup, Stage.authorization,
                    Stage.rateCheck]⟩
              else
                ⟨Outcome.next,
                  some ⟨env.now, p.ns, config "apiKeyBindingName", key.name⟩,
                  [Stage.credentialLookup, Stage.bindingLookup, Stage.authorization,
                    Stage.rateCheck]⟩

end Part000

namespace PluginGo

/-- The configuration object `pluginConfig.New` yields in `src/plugin.go`;
only its `ApiKeyBindingName` field is consumed. -/
structure Config where
  ApiKeyBindingName : String
deriving DecidableEq

/-- The external collaborators of `src/plugin.go`'s `OnRequest`: the
`ApiProxyStore` (applied to the request URL path; the external
`utils.ComputeURLPath` normalization is absorbed into the abstract store
function), the configuration parser `pluginConfig.New` (defined in this
repository's `config` package, outside `src/`, hence abstract here), the
`ApiKeyStore`, and the `ApiKeyBindingStore` read interface.  `ρ` is the
opaque rate type returned (and then discarded) by `GetRuleAndRate`. -/
structure Env (ρ : Type) where
  apiProxyStore : String → Option ApiProxy
  configNew : (String → String) → Option Config
  apiKeyStore : String → Option ApiKey
  bindingContains : String → String → Bool
  bindingContainsApiKey : String → String → String → Bool
  getRuleAndRate : String → String → String → String → Option Rule × ρ

/-- The error value this revision's `OnRequest` returns: nil via `next()`,
the external constant `kanaliErrors.ErrorProxyNotFound` (whose status code
is defined outside this repository), or a `kanaliErrors.Error` built by
`failure(code, msg)`. -/
inductive Outcome where
  | next
  | proxyNotFound
  | failure (status : Nat) (msg : String)
deriving DecidableEq

/-- The observable effect of one `OnRequest` call of `src/plugin.go`: its
returned error value and the pipeline stages reached.  This revision
reports no traffic point (its traffic code is commented out). -/
structure Result where
  outcome : Outcome
  stages : List Stage
deriving DecidableEq

/-- `extractApiKey` from `src/plugin.go` lines 205–211: reads the `apikey`
header and fails when its value is empty (Go's `Header.Get` returns `""`
for an absent header, so absent and empty coincide). -/
def extractApiKey (reqHeaders : String → String) : Option String :=
  let apiKeyText := reqHeaders "apikey"
  if apiKeyText.length < 1 then none else some apiKeyText

/-- `OnRequest` from `src/plugin.go` lines 64–160, statement by statement:
proxy lookup (`ErrorProxyNotFound` when absent), configuration parsing
(401 on error), OPTIONS bypass, `extractApiKey` (401 when empty),
credential lookup (401 when unknown), the two binding-store membership
checks (401 when absent), `GetRuleAndRate` (the rate is discarded by the
source: `rule, _ :=`), `validateApiKey`, and nil via `next()`.  The
rate-limit check and traffic report are commented out in this revision and
hence absent. -/
def OnRequest {ρ : Type} (env : Env ρ) (config : String → String)
    (r : Request) : Result :=
  match env.apiProxyStore r.urlPath with
  | none => ⟨Outcome.proxyNotFound, []⟩
  | some p =>
      match env.configNew config with
      | none => ⟨Outcome.failure 401 "api key not authorized", []⟩
      | some cfg =>
          if toUpperGo r.method == "OPTIONS" then
            ⟨Outcome.next, []⟩
          else
            match extractApiKey r.headers with
            | none => ⟨Outcome.failure 401 "api key not found in request", []⟩
            | some apiKeyText =>
                match env.apiKeyStore apiKeyText with
                | none =>
                    ⟨Outcome.failure 401 "api key not authorized",
                      [Stage.credentialLookup]⟩
                | some apiKeyObj =>
                    if !(env.bindingContains p.ns cfg.ApiKeyBindingName) then
                      ⟨Outcome.failure 401 "api key not authorized",
                        [Stage.credentialLookup, Stage.bindingLookup]⟩
                    else if !(env.bindingContainsApiKey p.ns cfg.ApiKeyBindingName
                        apiKeyObj.name) then
                      ⟨Outcome.failure 401 "api key not authorized",
                        [Stage.credentialLookup, Stage.bindingLookup]⟩
                    else
                      let rule := (env.getRuleAndRate p.ns cfg.ApiKeyBindingName
                        apiKeyObj.name
                        (ComputeTargetPath p.sourcePath p.targetPath r.urlPath)).1
                      if !(validateApiKey rule r.method) then
                        ⟨Outcome.failure 401 "api key unauthorized",
                          [Stage.credentialLookup, Stage.bindingLookup,
                            Stage.authorization]⟩
                      else
                        ⟨Outcome.next,
                          [Stage.credentialLookup, Stage.bindingLookup,
                            Stage.authorization]⟩

/-- The traffic point reported by one `src/plugin.go` `OnRequest` call.
In that revision the traffic reporting (the `go trafficCtlr.Report` block,
lines 151–156) is commented out in the source, together with the
controller it would use (lines 47–58), so no call — allowed or denied —
reports a traffic point. -/
def reportedTraffic {ρ : Type} (_env : Env ρ) (_config : String → String)
    (_r : Request) : Option Part000.TrafficPoint :=
  none

end PluginGo

/-- A sample credential store holding the single key `abc123`, used to
instantiate the universally quantified theorems below at concrete
inputs. -/
def sampleKeyStore : String → Option ApiKey :=
  fun s => if s == "abc123" then some ⟨"key1"⟩ else none

/-- A sample proxy resource used by the concrete instantiations below. -/
def sampleProxy : ApiProxy := ⟨"ns1", "/v1", "/internal"⟩

/-- A sample GET request presenting the key `abc123` in its `apikey`
header. -/
def sampleReqGet : Request :=
  ⟨"GET", "/v1/widgets", fun h => if h == "apikey" then "abc123" else ""⟩

/-- A sample GET request with no `apikey` header (Go's `Header.Get`
yields the empty string). -/
def sampleReqNoKey : Request := ⟨"GET", "/v1/widgets", fun _ => ""⟩

/-- A sample lowercase-method `options` request. -/
def sampleReqOptionsLower : Request := ⟨"options", "/v1/users", fun _ => ""⟩

/-- C1: for every rule with `Global = true` and every method, both
revisions' decision functions return true, whatever the granular verb
list holds — the quantification over the whole rule shows the granular
content is never consulted. -/
theorem validateApiKey_global_allows (rule : Rule) (method : String)
    (h : rule.Global = true) :
    validateApiKey (some rule) method = true ∧ validateAPIKey rule method = true := by
  simp [validateApiKey, validateAPIKey, h]

/-- Witness for C1: a global rule with an empty verb list allows DELETE. -/
theorem validateApiKey_global_allows_witness :
    (Rule.mk true ⟨[]⟩).Global = true ∧
    (validateApiKey (some (Rule.mk true ⟨[]⟩)) "DELETE" = true ∧
      validateAPIKey (Rule.mk true ⟨[]⟩) "DELETE" = true) :=
  ⟨rfl, validateApiKey_global_allows (Rule.mk true ⟨[]⟩) "DELETE" rfl⟩

/-- C2: for every rule with `Global = false` and a non-empty verb list,
both revisions' decision functions return true exactly when the method
equals some verb after uppercasing both sides. -/
theorem validateApiKey_granular_iff (rule : Rule) (method : String)
    (hg : rule.Global = false) (hne : rule.Granular.Verbs ≠ []) :
    (validateApiKey (some rule) method = true ↔
      ∃ verb ∈ rule.Granular.Verbs, toUpperGo verb = toUpperGo method) ∧
    (validateAPIKey rule method = true ↔
      ∃ verb ∈ rule.Granular.Verbs, toUpperGo verb = toUpperGo method) := by
  have h1 : ¬(rule.Granular.Verbs.length < 1) := by
    simpa [Nat.lt_one_iff, List.length_eq_zero] using hne
  constructor <;>
    simp [validateApiKey, validateAPIKey, validateGranularRules, hg, h1,
      List.any_eq_true]

/-- Witness for C2: verbs `["get", "POST"]`, method `"Get"` — the spec's
own example — matches case-insensitively. -/
theorem validateApiKey_granular_iff_witness :
    (Rule.mk false ⟨["get", "POST"]⟩).Global = false ∧
    (Rule.mk false ⟨["get", "POST"]⟩).Granular.Verbs ≠ [] ∧
    ((validateApiKey (some (Rule.mk false ⟨["get", "POST"]⟩)) "Get" = true ↔
      ∃ verb ∈ ["get", "POST"], toUpperGo verb = toUpperGo "Get") ∧
    (validateAPIKey (Rule.mk false ⟨["get", "POST"]⟩) "Get" = true ↔
      ∃ verb ∈ ["get", "POST"], toUpperGo verb = toUpperGo "Get")) :=
  ⟨rfl, by decide,
    validateApiKey_granular_iff (Rule.mk false ⟨["get", "POST"]⟩) "Get" rfl (by decide)⟩

/-- C3: for every method, a nil rule denies, and a non-global rule with an
empty verb list denies, in both revisions; the embedding is total, so
neither case panics or default-allows. -/
theorem validateApiKey_fails_closed (method : String) (rule : Rule)
    (hg : rule.Global = false) (hv : rule.Granular.Verbs = []) :
    validateApiKey none method = false ∧
    validateApiKey (some rule) method = false ∧
    validateAPIKey rule method = false := by
  refine ⟨rfl, ?_, ?_⟩ <;>
    simp [validateApiKey, validateAPIKey, validateGranularRules, hg, hv]

/-- Witness for C3: the empty-verb non-global rule denies GET. -/
theorem validateApiKey_fails_closed_witness :
    (Rule.mk false ⟨[]⟩).Global = false ∧ (Rule.mk false ⟨[]⟩).Granular.Verbs = [] ∧
    (validateApiKey none "GET" = false ∧
      validateApiKey (some (Rule.mk false ⟨[]⟩)) "GET" = false ∧
      validateAPIKey (Rule.mk false ⟨[]⟩) "GET" = false) :=
  ⟨rfl, rfl, validateApiKey_fails_closed "GET" (Rule.mk false ⟨[]⟩) rfl rfl⟩

/-- C9: the two concrete evaluations the spec gives for
`ComputeTargetPath`, together with its general contract: when
`sourcePath` is a prefix of `requestPath` the prefix is stripped and
`targetPath` prepended, otherwise `requestPath` is returned unchanged. -/
theorem ComputeTargetPath_spec :
    ComputeTargetPath "/v1" "/internal" "/v1/users" = "/internal/users" ∧
    ComputeTargetPath "/v1" "/internal" "/other/users" = "/other/users" ∧
    ∀ (s t p : String),
      (s.data.isPrefixOf p.data = true →
        ComputeTargetPath s t p = t ++ String.mk (p.data.drop s.data.length)) ∧
      (s.data.isPrefixOf p.data = false → ComputeTargetPath s t p = p) := by
  refine ⟨by decide, by decide, fun s t p => ⟨fun h => ?_, fun h => ?_⟩⟩ <;>
    simp [ComputeTargetPath, h]

/-- Witness for C9: the general contract instantiated at the spec's
matching example. -/
theorem ComputeTargetPath_spec_witness :
    "/v1".data.isPrefixOf "/v1/users".data = true ∧
    ComputeTargetPath "/v1" "/internal" "/v1/users" =
      "/internal" ++ String.mk ("/v1/users".data.drop "/v1".data.length) :=
  ⟨by decide, (ComputeTargetPath_spec.2.2 "/v1" "/internal" "/v1/users").1 (by decide)⟩

/-- C10: the OPTIONS bypass of `src/unnamed/part_000` fires for every
method string whose uppercasing is `"OPTIONS"`, not only for the exact
string: the result is nil with no stage reached and no traffic reported.
(`src/plugin.go` line 86 tests the identical condition
`strings.ToUpper(r.Method) == "OPTIONS"`.) -/
theorem OnRequest_options_case_insensitive {ρ : Type} (env : Part000.Env ρ)
    (config : String → String) (p : ApiProxy) (r : Request)
    (h : toUpperGo r.method = "OPTIONS") :
    Part000.OnRequest env config p r = ⟨Part000.Outcome.next, none, []⟩ := by
  simp [Part000.OnRequest, h]

/-- Witness for C10: the lowercase method `options` is short-circuited. -/
theorem OnRequest_options_case_insensitive_witness :
    toUpperGo "options" = "OPTIONS" ∧
    Part000.OnRequest (ρ := Unit)
      ⟨"apikey", sampleKeyStore, fun _ _ _ _ => (none, ()), fun _ _ _ _ => false, 0⟩
      (fun _ => "mybinding") sampleProxy sampleReqOptionsLower =
      ⟨Part000.Outcome.next, none, []⟩ :=
  ⟨by decide, OnRequest_options_case_insensitive _ _ _ _ (by decide)⟩

/-- Counterexample for C4: in `src/plugin.go` the proxy-store lookup
precedes the OPTIONS check, so an OPTIONS request against an empty proxy
store returns `ErrorProxyNotFound`, not the allowed outcome — the claim
"always allowed regardless of store state" fails on that revision. -/
theorem OnRequest_options_not_unconditional :
    toUpperGo "OPTIONS" = "OPTIONS" ∧
    (PluginGo.OnRequest (ρ := Unit)
      ⟨fun _ => none, fun _ => none, fun _ => none, fun _ _ => false,
        fun _ _ _ => false, fun _ _ _ _ => (none, ())⟩
      (fun _ => "") ⟨"OPTIONS", "/v1/users", fun _ => ""⟩).outcome ≠
      PluginGo.Outcome.next := by
  exact ⟨by decide, by decide⟩

/-- C4 (amended): an OPTIONS request never reaches the credential lookup,
the binding lookup or the rule validation in either revision; in
`src/unnamed/part_000` it is allowed unconditionally, while in
`src/plugin.go` it is allowed provided the proxy-store lookup and the
configuration parsing — which precede the OPTIONS check there — both
succeed. -/
theorem OnRequest_options_amended {ρ ρ2 : Type} (envA : Part000.Env ρ)
    (config : String → String) (p : ApiProxy) (r : Request)
    (envB : PluginGo.Env ρ2) (configB : String → String) (rB : Request)
    (hA : toUpperGo r.method = "OPTIONS") (hB : toUpperGo rB.method = "OPTIONS")
    (pB : ApiProxy) (hp : envB.apiProxyStore rB.urlPath = some pB)
    (cfg : PluginGo.Config) (hc : envB.configNew configB = some cfg) :
    Part000.OnRequest envA config p r = ⟨Part000.Outcome.next, none, []⟩ ∧
    PluginGo.OnRequest envB configB rB = ⟨PluginGo.Outcome.next, []⟩ := by
  constructor
  · simp [Part000.OnRequest, hA]
  · simp [PluginGo.OnRequest, hp, hc, hB]

/-- Witness for C4 (amended): uppercase OPTIONS requests on both
revisions, with the proxy present and a parsable configuration for the
`src/plugin.go` revision. -/
theorem OnRequest_options_amended_witness :
    toUpperGo "OPTIONS" = "OPTIONS" ∧
    (fun (_ : String) => some sampleProxy) "/v1/users" = some sampleProxy ∧
    (fun (_ : String → String) => some (PluginGo.Config.mk "mybinding"))
      (fun _ => "mybinding") = some (PluginGo.Config.mk "mybinding") ∧
    (Part000.OnRequest (ρ := Unit)
      ⟨"apikey", sampleKeyStore, fun _ _ _ _ => (none, ()), fun _ _ _ _ => false, 0⟩
      (fun _ => "mybinding") sampleProxy ⟨"OPTIONS", "/v1/users", fun _ => ""⟩ =
      ⟨Part000.Outcome.next, none, []⟩ ∧
    PluginGo.OnRequest (ρ := Unit)
      ⟨fun _ => some sampleProxy, fun _ => some (PluginGo.Config.mk "mybinding"),
        sampleKeyStore, fun _ _ => true, fun _ _ _ => true, fun _ _ _ _ => (none, ())⟩
      (fun _ => "mybinding") ⟨"OPTIONS", "/v1/users", fun _ => ""⟩ =
      ⟨PluginGo.Outcome.next, []⟩) :=
  ⟨by decide, rfl, rfl,
    OnRequest_options_amended _ _ _ _ _ _ _ (by decide) (by decide) _ rfl _ rfl⟩

/-- C5: in the revision carrying the live rate-limit gate
(`src/unnamed/part_000`), whenever every earlier stage passes and the
traffic store reports a rate-limit violation, `OnRequest` returns a 429
status error — a hard denial with no traffic point reported, never a
delay or a pass-through. -/
theorem OnRequest_rate_violation_429 {ρ : Type} (env : Part000.Env ρ)
    (config : String → String) (p : ApiProxy) (r : Request)
    (hm : toUpperGo r.method ≠ "OPTIONS")
    (hk : 1 ≤ (r.headers env.headerKey).length)
    (key : ApiKey) (hkey : env.apiKeyStore (r.headers env.headerKey) = some key)
    (rule : Rule) (rate : ρ)
    (hrule : env.apiKeyBindingGet p.ns (config "apiKeyBindingName") key.name
      (ComputeTargetPath p.sourcePath p.targetPath r.urlPath) = (some rule, rate))
    (hauth : validateAPIKey rule r.method = true)
    (hviol : env.isRateLimitViolated p rate key.name env.now = true) :
    Part000.OnRequest env config p r =
      ⟨Part000.Outcome.statusError 429 "rate limit exceeded", none,
        [Stage.credentialLookup, Stage.bindingLookup, Stage.authorization,
          Stage.rateCheck]⟩ := by
  simp [Part000.OnRequest, hm, Nat.not_lt.mpr hk, hkey, hrule, hauth, hviol]

/-- Witness for C5: a GET request whose key and global rule resolve, under
a traffic store that always reports a violation, is denied with 429. -/
theorem OnRequest_rate_violation_429_witness :
    toUpperGo "GET" ≠ "OPTIONS" ∧
    1 ≤ ((sampleReqGet.headers "apikey").length) ∧
    sampleKeyStore "abc123" = some ⟨"key1"⟩ ∧
    validateAPIKey (Rule.mk true ⟨[]⟩) "GET" = true ∧
    Part000.OnRequest (ρ := Unit)
      ⟨"apikey", sampleKeyStore, fun _ _ _ _ => (some (Rule.mk true ⟨[]⟩), ()),
        fun _ _ _ _ => true, 5⟩
      (fun _ => "mybinding") sampleProxy sampleReqGet =
      ⟨Part000.Outcome.statusError 429 "rate limit exceeded", none,
        [Stage.credentialLookup, Stage.bindingLookup, Stage.authorization,
          Stage.rateCheck]⟩ :=
  ⟨by decide, by decide, by decide, by decide,
    OnRequest_rate_violation_429 _ _ _ _ (by decide) (by decide) ⟨"key1"⟩ (by decide)
      (Rule.mk true ⟨[]⟩) () rfl (by decide) rfl⟩

/-- Counterexample for C6: in `src/plugin.go` the traffic reporting is
commented out while the allowed path (`return next()`, line 158) is live,
so a GET request that passes every check and is returned allowed appends
no Traffic Event — refuting, on that revision, the claim that an event is
emitted exactly when `OnRequest` returns the allowed outcome after all
checks pass. -/
theorem OnRequest_allowed_without_traffic :
    (PluginGo.OnRequest (ρ := Unit)
      ⟨fun _ => some sampleProxy, fun _ => some (PluginGo.Config.mk "mybinding"),
        sampleKeyStore, fun _ _ => true, fun _ _ _ => true,
        fun _ _ _ _ => (some (Rule.mk true ⟨[]⟩), ())⟩
      (fun _ => "mybinding") sampleReqGet =
      ⟨PluginGo.Outcome.next,
        [Stage.credentialLookup, Stage.bindingLookup, Stage.authorization]⟩) ∧
    PluginGo.reportedTraffic (ρ := Unit)
      ⟨fun _ => some sampleProxy, fun _ => some (PluginGo.Config.mk "mybinding"),
        sampleKeyStore, fun _ _ => true, fun _ _ _ => true,
        fun _ _ _ _ => (some (Rule.mk true ⟨[]⟩), ())⟩
      (fun _ => "mybinding") sampleReqGet = none := by
  exact ⟨by decide, rfl⟩

/-- C6 (amended): in `src/unnamed/part_000` a traffic point is reported
exactly when `OnRequest` returns nil on the full validation path — the
outcome is allowed and the request was not an OPTIONS bypass (which is
allowed without any check passing); in particular no denial, including a
granular-verb mismatch's 401, ever reports one.  The detached
`go ReportTraffic` call is modelled by the `traffic` field of the result.
In the `src/plugin.go` revision the traffic reporting is commented out, so
no call there reports a traffic point, allowed or not. -/
theorem OnRequest_traffic_iff_allowed {ρ ρ2 : Type} (env : Part000.Env ρ)
    (config : String → String) (p : ApiProxy) (r : Request)
    (envB : PluginGo.Env ρ2) (configB : String → String) (rB : Request) :
    ((Part000.OnRequest env config p r).traffic.isSome = true ↔
      ((Part000.OnRequest env config p r).outcome = Part000.Outcome.next ∧
        toUpperGo r.method ≠ "OPTIONS")) ∧
    PluginGo.reportedTraffic envB configB rB = none := by
  constructor
  · simp only [Part000.OnRequest]
    repeat' split
    all_goals simp_all
  · rfl

/-- C7: a non-OPTIONS request whose credential header value is empty (Go
returns `""` for an absent header) is denied with a 401 status error by
both revisions, with no pipeline stage — in particular no credential
lookup — reached; for the `src/plugin.go` revision this holds once its
preceding proxy lookup and configuration parsing succeed. -/
theorem OnRequest_empty_apikey_401 {ρ ρ2 : Type} (envA : Part000.Env ρ)
    (config : String → String) (p : ApiProxy) (r : Request)
    (hm : toUpperGo r.method ≠ "OPTIONS")
    (hempty : (r.headers envA.headerKey).length < 1)
    (envB : PluginGo.Env ρ2) (configB : String → String) (rB : Request)
    (hmB : toUpperGo rB.method ≠ "OPTIONS")
    (hemptyB : (rB.headers "apikey").length < 1)
    (pB : ApiProxy) (hp : envB.apiProxyStore rB.urlPath = some pB)
    (cfg : PluginGo.Config) (hc : envB.configNew configB = some cfg) :
    Part000.OnRequest envA config p r =
      ⟨Part000.Outcome.statusError 401 "apikey not found in request", none, []⟩ ∧
    PluginGo.OnRequest envB configB rB =
      ⟨PluginGo.Outcome.failure 401 "api key not found in request", []⟩ := by
  constructor
  · simp [Part000.OnRequest, hm, hempty]
  · simp [PluginGo.OnRequest, PluginGo.extractApiKey, hp, hc, hmB, hemptyB]

/-- Witness for C7: a keyless GET request is denied 401 by both revisions
before any store lookup. -/
theorem OnRequest_empty_apikey_401_witness :
    toUpperGo "GET" ≠ "OPTIONS" ∧
    (sampleReqNoKey.headers "apikey").length < 1 ∧
    (Part000.OnRequest (ρ := Unit)
      ⟨"apikey", sampleKeyStore, fun _ _ _ _ => (none, ()), fun _ _ _ _ => false, 0⟩
      (fun _ => "mybinding") sampleProxy sampleReqNoKey =
      ⟨Part000.Outcome.statusError 401 "apikey not found in request", none, []⟩ ∧
    PluginGo.OnRequest (ρ := Unit)
      ⟨fun _ => some sampleProxy, fun _ => some (PluginGo.Config.mk "mybinding"),
        sampleKeyStore, fun _ _ => true, fun _ _ _ => true, fun _ _ _ _ => (none, ())⟩
      (fun _ => "mybinding") sampleReqNoKey =
      ⟨PluginGo.Outcome.failure 401 "api key not found in request", []⟩) :=
  ⟨by decide, by decide,
    OnRequest_empty_apikey_401 _ _ sampleProxy _ (by decide) (by decide)
      _ _ _ (by decide) (by decide) _ rfl _ rfl⟩

/-- C8: in `src/plugin.go`, once the proxy resolves, a configuration
mapping that the parser rejects makes `OnRequest` return the 401 failure
`api key not authorized` — never a 5xx and never the allowed outcome —
before any pipeline stage is reached.  The parser itself
(`pluginConfig.New`, defined outside `src/`) is universally quantified, so
the theorem holds for every parser and every rejected configuration. -/
theorem OnRequest_malformed_config_401 {ρ : Type} (env : PluginGo.Env ρ)
    (config : String → String) (r : Request) (p : ApiProxy)
    (hp : env.apiProxyStore r.urlPath = some p)
    (hc : env.configNew config = none) :
    PluginGo.OnRequest env config r =
      ⟨PluginGo.Outcome.failure 401 "api key not authorized", []⟩ := by
  simp [PluginGo.OnRequest, hp, hc]

/-- Witness for C8: a parser rejecting every configuration yields the 401
failure even for a request that would otherwise be allowed. -/
theorem OnRequest_malformed_config_401_witness :
    (fun (_ : String) => some sampleProxy) "/v1/widgets" = some sampleProxy ∧
    (fun (_ : String → String) => (none : Option PluginGo.Config)) (fun _ => "") = none ∧
    PluginGo.OnRequest (ρ := Unit)
      ⟨fun _ => some sampleProxy, fun _ => none, sampleKeyStore,
        fun _ _ => true, fun _ _ _ => true,
        fun _ _ _ _ => (some (Rule.mk true ⟨[]⟩), ())⟩
      (fun _ => "") sampleReqGet =
      ⟨PluginGo.Outcome.failure 401 "api key not authorized", []⟩ :=
  ⟨rfl, rfl, OnRequest_malformed_config_401 _ _ sampleReqGet _ rfl rfl⟩
